import Mathlib

/-!
Verification development for the OpenClaw autonomous build orchestrator.

The definitions below are shallow embeddings of the JavaScript source:
`index.js` (agent gateway: intent detection, adaptive model routing,
provider routing, retry wrapper, session history), `sandboxManager.js`
(container pool, queue, exec, file writes) and `orchestrator.js`
(planning / build / fix loop, code testing protocol).  Asynchronous
effects are modelled by explicit state passing and by oracles for the
outcomes of external calls (agent invocations, docker transport).
-/

namespace OpenClaw

/-- Prefix test on character lists. -/
def charListPrefix : List Char → List Char → Bool
  | [], _ => true
  | _ :: _, [] => false
  | a :: as, b :: bs => a == b && charListPrefix as bs

/-- Occurrence test on character lists: does `pat` occur in `s`? -/
def charListContains : List Char → List Char → Bool
  | [], pat => pat.isEmpty
  | c :: rest, pat => charListPrefix pat (c :: rest) || charListContains rest pat

/-- Substring test, the embedding of JavaScript
`String.prototype.includes`. -/
def strContains (s pat : String) : Bool :=
  charListContains s.data pat.data

/-- Embedding of JavaScript `String.prototype.toLowerCase` (the roles and
prompts concerned are ASCII). -/
def strToLower (s : String) : String :=
  String.mk (s.data.map Char.toLower)

/-- Embedding of JavaScript `String.prototype.startsWith`. -/
def strStartsWith (s pre : String) : Bool :=
  charListPrefix pre.data s.data

/-! ## Agent gateway: intent detection and adaptive model routing
(from `index.js`, `detectIntent` and `getAdaptiveModel`). -/

/-- Prompt intent labels of `detectIntent`. -/
inductive Intent
  | SCAFFOLD
  | CRUD
  | STATIC
  | REFACTOR
  | GENERAL
deriving Repr, DecidableEq

/-- Lower-case rendering of an intent label, the embedding of
`intent.toLowerCase()` used when building routing reasons. -/
def intentSuffix : Intent → String
  | .SCAFFOLD => "scaffold"
  | .CRUD => "crud"
  | .STATIC => "static"
  | .REFACTOR => "refactor"
  | .GENERAL => "general"

/-- Embedding of `detectIntent(prompt)`: case-insensitive first-match
substring classification of the prompt. -/
def detectIntent (prompt : String) : Intent :=
  let p := strToLower prompt
  if strContains p "scaffold" || strContains p "boilerplate" || strContains p "setup" || strContains p "new project" then .SCAFFOLD
  else if strContains p "crud" || strContains p "form" || strContains p "api" || strContains p "list" then .CRUD
  else if strContains p "static" || strContains p "landing" || strContains p "html only" then .STATIC
  else if strContains p "refactor" || strContains p "optimize" || strContains p "migration" then .REFACTOR
  else .GENERAL

/-- Default large chat model (`OLLAMA_MODEL`). -/
def OLLAMA_MODEL : String := "qwen2.5-coder:14b"

/-- Mid-size chat model (`OLLAMA_7B_MODEL`). -/
def OLLAMA_7B_MODEL : String := "qwen2.5-coder:7b"

/-- Small chat model (`OLLAMA_1_5B_MODEL`). -/
def OLLAMA_1_5B_MODEL : String := "qwen2.5-coder:1.5b"

/-- Fixer-pinned model (`OLLAMA_FIXER_MODEL`, environment default). -/
def OLLAMA_FIXER_MODEL : String := "qwen2.5-coder:1.5b"

/-- Feature flag `PHASE_3_6_ENABLED`, a source constant set to `true`. -/
def PHASE_3_6_ENABLED : Bool := true

/-- Core of `getAdaptiveModel` once the intent has been computed from the
prompt: returns the chosen model together with the routing reason.  The
queue argument is the value of the module-level counter
`activeBuilderRequests` read inside the function. -/
def getAdaptiveModelWithIntent (role complexity : String) (intent : Intent)
    (activeBuilderRequests : Nat) : String × String :=
  if role = "fixer" then
    (OLLAMA_FIXER_MODEL, "fixer_pinned")
  else if role ≠ "builder" ∧ role ≠ "coder" ∧ role ≠ "executor" then
    (OLLAMA_MODEL, "planner_quality_pinned")
  else
    let queue := activeBuilderRequests
    if complexity = "complex" then
      if PHASE_3_6_ENABLED && (intent == .CRUD || intent == .STATIC || intent == .SCAFFOLD) then
        (OLLAMA_7B_MODEL, "complex_optimized_" ++ intentSuffix intent)
      else
        (OLLAMA_MODEL, "complex_pinned_quality")
    else if complexity = "simple" then
      if 3 ≤ queue then (OLLAMA_1_5B_MODEL, "simple_queue_high")
      else if 2 ≤ queue then (OLLAMA_7B_MODEL, "simple_queue_medium")
      else (OLLAMA_MODEL, "simple_queue_low")
    else
      if 3 ≤ queue || (PHASE_3_6_ENABLED && intent == .STATIC) then
        (OLLAMA_7B_MODEL, if 3 ≤ queue then "medium_queue_high" else "medium_optimized_static")
      else
        (OLLAMA_MODEL, "medium_standard")

/-- Embedding of `getAdaptiveModel(role, complexity, prompt)` reading the
builder-queue counter: the source first computes
`const intent = detectIntent(prompt)` and then branches on role,
complexity, intent and queue depth. -/
def getAdaptiveModel (role complexity prompt : String)
    (activeBuilderRequests : Nat) : String × String :=
  getAdaptiveModelWithIntent role complexity (detectIntent prompt) activeBuilderRequests

/-! ## Specification-side decision table for adaptive routing (section 4.3
of the spec).  This is the spec's wording, kept distinct from the code
embedding above so the two can be compared: an ordered list of rows, the
first matching row wins. -/

/-- First-match semantics over an ordered list of optional row results. -/
def firstMatch : List (Option α) → Option α
  | [] => none
  | some b :: _ => some b
  | none :: rest => firstMatch rest

/-- Spec row: fixer is pinned to the small fixer model. -/
def rowFixer (role : String) : Option (String × String) :=
  if role = "fixer" then some (OLLAMA_FIXER_MODEL, "fixer_pinned") else none

/-- Spec row: any role other than builder/coder/executor gets the large
model for planner quality. -/
def rowNonBuilder (role : String) : Option (String × String) :=
  if role ≠ "builder" ∧ role ≠ "coder" ∧ role ≠ "executor" then
    some (OLLAMA_MODEL, "planner_quality_pinned")
  else none

/-- Spec row: complex builder-class work with CRUD/STATIC/SCAFFOLD intent
is optimized down to the mid model. -/
def rowComplexOptimized (complexity : String) (intent : Intent) : Option (String × String) :=
  if complexity = "complex" ∧ (intent = .CRUD ∨ intent = .STATIC ∨ intent = .SCAFFOLD) then
    some (OLLAMA_7B_MODEL, "complex_optimized_" ++ intentSuffix intent)
  else none

/-- Spec row: other complex builder-class work is pinned to the large model. -/
def rowComplexPinned (complexity : String) : Option (String × String) :=
  if complexity = "complex" then some (OLLAMA_MODEL, "complex_pinned_quality") else none

/-- Spec row: simple work under high queue pressure uses the small model. -/
def rowSimpleHigh (complexity : String) (q : Nat) : Option (String × String) :=
  if complexity = "simple" ∧ 3 ≤ q then some (OLLAMA_1_5B_MODEL, "simple_queue_high") else none

/-- Spec row: simple work under medium queue pressure uses the mid model. -/
def rowSimpleMedium (complexity : String) (q : Nat) : Option (String × String) :=
  if complexity = "simple" ∧ 2 ≤ q then some (OLLAMA_7B_MODEL, "simple_queue_medium") else none

/-- Spec row: simple work otherwise uses the large model. -/
def rowSimpleLow (complexity : String) : Option (String × String) :=
  if complexity = "simple" then some (OLLAMA_MODEL, "simple_queue_low") else none

/-- Spec row: medium work with a deep queue, or STATIC intent, uses the
mid model; the reason distinguishes the two triggers. -/
def rowMediumHigh (complexity : String) (intent : Intent) (q : Nat) : Option (String × String) :=
  if complexity = "medium" ∧ (3 ≤ q ∨ intent = .STATIC) then
    some (OLLAMA_7B_MODEL, if 3 ≤ q then "medium_queue_high" else "medium_optimized_static")
  else none

/-- Spec row: medium work otherwise uses the large model. -/
def rowMediumStandard (complexity : String) : Option (String × String) :=
  if complexity = "medium" then some (OLLAMA_MODEL, "medium_standard") else none

/-- The section 4.3 decision table, rows in the spec's order, first
matching row wins. -/
def specAdaptiveModel (role complexity : String) (intent : Intent) (q : Nat) :
    Option (String × String) :=
  firstMatch
    [rowFixer role, rowNonBuilder role,
     rowComplexOptimized complexity intent, rowComplexPinned complexity,
     rowSimpleHigh complexity q, rowSimpleMedium complexity q, rowSimpleLow complexity,
     rowMediumHigh complexity intent q, rowMediumStandard complexity]

/-! ## Agent gateway: role→provider routing and the builder counter
(from `index.js`, `getProviderForRole`, `invokeAgent` / `streamAgent`). -/

/-- Supervisory roles routed to the polling-bot provider (`MICROSOFT_ROLES`). -/
def MICROSOFT_ROLES : List String :=
  ["planner", "frontend", "backend", "devops", "qa", "android", "ios"]

/-- Execution roles routed to the chat provider (`QWEN_ROLES`). -/
def QWEN_ROLES : List String :=
  ["builder", "installer", "fixer", "coder", "executor"]

/-- Embedding of `getProviderForRole(role)`: exact membership first, then
fuzzy substring matching on the lower-cased role name, defaulting to the
chat provider. -/
def getProviderForRole (role : String) : String :=
  let normalizedRole := strToLower role
  if MICROSOFT_ROLES.contains normalizedRole then "microsoft"
  else if QWEN_ROLES.contains normalizedRole then "qwen"
  else if strContains normalizedRole "plan" || strContains normalizedRole "architect" then "microsoft"
  else if strContains normalizedRole "front" then "microsoft"
  else if strContains normalizedRole "back" then "microsoft"
  else if strContains normalizedRole "devops" || strContains normalizedRole "deploy" then "microsoft"
  else if strContains normalizedRole "qa" || strContains normalizedRole "test" || strContains normalizedRole "quality" then "microsoft"
  else if strContains normalizedRole "android" || strContains normalizedRole "mobile" then "microsoft"
  else if strContains normalizedRole "ios" || strContains normalizedRole "apple" || strContains normalizedRole "swift" then "microsoft"
  else if strContains normalizedRole "build" || strContains normalizedRole "code" || strContains normalizedRole "install" || strContains normalizedRole "fix" then "qwen"
  else "qwen"

/-- The builder-class test of `invokeAgent` / `streamAgent`:
`role === 'builder' || role === 'coder' || role === 'executor'`. -/
def isBuilderClassRole (role : String) : Bool :=
  role == "builder" || role == "coder" || role == "executor"

/-- Observable effects of one `invokeAgent` call on the module-level
`activeBuilderRequests` counter. -/
structure InvokeCounterTrace where
  observedQueueDepth : Nat
  modelSelected : String
  counterAfter : Nat
deriving Repr, DecidableEq

/-- Embedding of the counter discipline of `invokeAgent`: for a
builder-class request on the chat provider the counter is incremented
before `getAdaptiveModel` runs (so model selection sees the updated
value), and the `finally` block decrements it again whether the
invocation succeeds or fails. -/
def invokeAgentCounter (activeBefore : Nat) (role complexity prompt : String)
    (succeeds : Bool) : InvokeCounterTrace :=
  let provider := getProviderForRole role
  let tracked := provider == "qwen" && isBuilderClassRole role
  let active1 := if tracked then activeBefore + 1 else activeBefore
  let model :=
    if provider == "microsoft" then "microsoft-studio"
    else (getAdaptiveModel role complexity prompt active1).1
  let activeFinal :=
    if succeeds then (if tracked then active1 - 1 else active1)
    else (if tracked then active1 - 1 else active1)
  { observedQueueDepth := active1
    modelSelected := model
    counterAfter := activeFinal }

/-! ## Chat-provider retry wrapper (from `index.js`,
`invokeQwenWithRetry`). -/

/-- Outcome of one underlying `invokeQwen` attempt. -/
inductive QwenOutcome
  | ok (content : String)
  | fail (msg : String)
deriving Repr, DecidableEq

/-- The retryable error classes of `invokeQwenWithRetry`: substring tests
on the error message. -/
def isRetryableMsg (msg : String) : Bool :=
  strContains msg "connection" || strContains msg "timeout" ||
  strContains msg "ECONNREFUSED" || strContains msg "ETIMEDOUT" ||
  strContains msg "fetch failed"

/-- What one run of the retry wrapper did: the final result, how many
`invokeQwen` attempts were made, and the backoff sleeps performed (ms). -/
structure RetryTrace where
  result : Except String String
  attemptsMade : Nat
  delays : List Nat
deriving Repr

/-- Body of the `for (attempt = 0; attempt <= maxRetries; ...)` loop of
`invokeQwenWithRetry`: a successful attempt returns at once; a failure
retries after `2000 * (attempt + 1)` ms only when the message is in a
retryable class and attempts remain, and is rethrown otherwise.  `fuel`
bounds the recursion; the wrapper supplies `maxRetries + 1`, exactly the
number of loop iterations. -/
def retryAux (attempts : Nat → QwenOutcome) (maxRetries : Nat) :
    Nat → Nat → RetryTrace
  | 0, _ => { result := .error "", attemptsMade := 0, delays := [] }
  | fuel + 1, attempt =>
    match attempts attempt with
    | .ok content => { result := .ok content, attemptsMade := 1, delays := [] }
    | .fail msg =>
      if isRetryableMsg msg ∧ attempt < maxRetries then
        let t := retryAux attempts maxRetries fuel (attempt + 1)
        { result := t.result
          attemptsMade := t.attemptsMade + 1
          delays := 2000 * (attempt + 1) :: t.delays }
      else { result := .error msg, attemptsMade := 1, delays := [] }

/-- Embedding of `invokeQwenWithRetry(..., maxRetries, ...)` with the
attempt outcomes supplied by an oracle. -/
def invokeQwenWithRetry (attempts : Nat → QwenOutcome) (maxRetries : Nat) : RetryTrace :=
  retryAux attempts maxRetries (maxRetries + 1) 0

/-- The `maxRetries` argument `invokeAgent` passes to
`invokeQwenWithRetry` for chat-provider execution agents. -/
def INVOKE_AGENT_MAX_RETRIES : Nat := 3

/-! ## Session history update (from `index.js`, the `/invoke` and
`/invoke/stream` handlers). -/

/-- One conversation entry. -/
structure ChatMessage where
  role : String
  content : String
deriving Repr, DecidableEq

/-- Embedding of the history mutation after an invoke: push the user
message and the assistant reply, then, when the length exceeds 20, keep
only the last 16 entries (`session.history = session.history.slice(-16)`). -/
def updateSessionHistory (history : List ChatMessage)
    (userMsg assistantMsg : ChatMessage) : List ChatMessage :=
  let h := history ++ [userMsg, assistantMsg]
  if 20 < h.length then h.drop (h.length - 16) else h

/-! ## Sandbox manager (from `sandboxManager.js`): container pool with a
global concurrency cap, FIFO creation queue, exec, base64 file writes and
idempotent-looking destruction. -/

/-- Base64 alphabet used by `Buffer.toString('base64')`. -/
def b64Alphabet : List Char :=
  "ABCDEFGHIJKLMNOPQRSTUVWXYZabcdefghijklmnopqrstuvwxyz0123456789+/".data

/-- Alphabet lookup for a 6-bit group. -/
def b64Char (n : Nat) : Char := b64Alphabet.getD n 'A'

/-- UTF-8 encoding of one character as byte values. -/
def utf8Bytes (c : Char) : List Nat :=
  let n := c.toNat
  if n < 128 then [n]
  else if n < 2048 then [192 + n / 64, 128 + n % 64]
  else if n < 65536 then [224 + n / 4096, 128 + (n / 64) % 64, 128 + n % 64]
  else [240 + n / 262144, 128 + (n / 4096) % 64, 128 + (n / 64) % 64, 128 + n % 64]

/-- Standard base64 of a byte list, with padding. -/
def b64EncodeBytes : List Nat → List Char
  | [] => []
  | [b0] =>
    [b64Char (b0 / 4), b64Char (b0 % 4 * 16), '=', '=']
  | [b0, b1] =>
    [b64Char (b0 / 4), b64Char (b0 % 4 * 16 + b1 / 16), b64Char (b1 % 16 * 4), '=']
  | b0 :: b1 :: b2 :: rest =>
    b64Char (b0 / 4) :: b64Char (b0 % 4 * 16 + b1 / 16) ::
      b64Char (b1 % 16 * 4 + b2 / 64) :: b64Char (b2 % 64) :: b64EncodeBytes rest

/-- Embedding of `Buffer.from(content).toString('base64')`. -/
def base64Encode (s : String) : String :=
  String.mk (b64EncodeBytes ((s.data.map utf8Bytes).flatten))

/-- A sandbox container record (`this.containers` map values); the
per-container logging counters are omitted. -/
structure Container where
  id : String
  sessionId : String
  name : String
  status : String
  workdir : String
deriving Repr, DecidableEq

/-- A pending creation request in the sandbox queue. -/
structure QueueEntry where
  sessionId : String
deriving Repr, DecidableEq

/-- Observable sandbox-manager state: the container map (as an
association list keyed by session id) and the FIFO creation queue. -/
structure SbState where
  containers : List (String × Container)
  queue : List QueueEntry
deriving Repr, DecidableEq

/-- Global concurrency cap `MAX_CONCURRENT_CONTAINERS` (default 3). -/
def MAX_CONCURRENT_CONTAINERS : Nat := 3

/-- Number of containers in `running` state. -/
def runningCount (st : SbState) : Nat :=
  (st.containers.filter (fun p => p.2.status == "running")).length

/-- Embedding of `canCreateContainer()`. -/
def canCreateContainer (st : SbState) : Bool :=
  decide (runningCount st < MAX_CONCURRENT_CONTAINERS)

/-- The container record `createContainer` builds for a session. -/
def newContainer (sessionId : String) : Container :=
  { id := "sbx-" ++ sessionId
    sessionId := sessionId
    name := "openclaw-" ++ sessionId
    status := "running"
    workdir := "/workspace/" ++ sessionId }

/-- Map lookup `this.containers.get(sessionId)`. -/
def lookupContainer (st : SbState) (sessionId : String) : Option Container :=
  (st.containers.find? (fun p => p.1 == sessionId)).map (fun p => p.2)

/-- Embedding of the `processQueue` / `createContainer` cascade: while a
slot is free and requests are queued, the head request is dequeued and
its container created (each creation calls `processQueue` again).  `fuel`
bounds the cascade; `processQueue` supplies the queue length. -/
def processQueueAux : Nat → SbState → SbState
  | 0, st => st
  | fuel + 1, st =>
    match st.queue with
    | [] => st
    | e :: rest =>
      if canCreateContainer st then
        processQueueAux fuel
          { st with
            queue := rest
            containers := st.containers ++ [(e.sessionId, newContainer e.sessionId)] }
      else st

/-- Embedding of `processQueue()`. -/
def processQueue (st : SbState) : SbState :=
  processQueueAux st.queue.length st

/-- Embedding of `createContainer(sessionId)` (state effect): below the
cap the container is added and the queue processed; at the cap the
request is enqueued FIFO. -/
def createContainer (st : SbState) (sessionId : String) : SbState :=
  if canCreateContainer st then
    processQueue
      { st with containers := st.containers ++ [(sessionId, newContainer sessionId)] }
  else
    { st with queue := st.queue ++ [{ sessionId := sessionId }] }

/-- Removal of a session's entry from the container map
(`this.containers.delete(sessionId)`). -/
def removeContainer (st : SbState) (sessionId : String) : SbState :=
  { st with containers := st.containers.filter (fun p => p.1 != sessionId) }

/-- Embedding of `destroyContainer(sessionId, reason)` (state effect,
successful transport): a missing container returns at once with
`not_found`; otherwise the entry is removed and `processQueue` starts the
next queued creation before returning. -/
def destroyContainer (st : SbState) (sessionId : String) : SbState :=
  match lookupContainer st sessionId with
  | none => st
  | some _ => processQueue (removeContainer st sessionId)

/-- Result record of `execInContainer`. -/
structure ExecResult where
  success : Bool
  output : String
  exitCode : Nat
deriving Repr, DecidableEq

/-- Outcome of the underlying `dockerExec` SSH invocation: trimmed stdout,
or the rejection message of `execAsync` (covering both a non-zero exit of
the in-container command and a transport failure). -/
inductive DockerOutcome
  | ok (stdout : String)
  | err (msg : String)
deriving Repr, DecidableEq

/-- Embedding of `execInContainer(sessionId, command, timeout)`: it throws
only when the session has no container or the container is not running;
inside the `try` block every `dockerExec` rejection is caught and turned
into `{success: false, output: error.message, exitCode: 1}` (the wrapping
`Error` built by `dockerExec` carries no `code` property, so `error.code
|| 1` is 1). -/
def execInContainer (st : SbState) (sessionId _command : String)
    (outcome : DockerOutcome) : Except String ExecResult :=
  match lookupContainer st sessionId with
  | none => .error ("No container found for session " ++ sessionId)
  | some c =>
    if c.status != "running" then
      .error ("Container " ++ c.id ++ " is not running (status: " ++ c.status ++ ")")
    else
      match outcome with
      | .ok stdout => .ok { success := true, output := stdout, exitCode := 0 }
      | .err msg =>
        .ok { success := false
              output := "Docker SSH command failed: " ++ msg
              exitCode := 1 }

/-- Result record of `writeFile`. -/
structure WriteResult where
  success : Bool
  filepath : String
deriving Repr, DecidableEq

/-- The shell pipeline `writeFile` issues: host-side base64, in-container
decode, redirect to the requested path. -/
def writeFileCommand (filepath content : String) : String :=
  "echo '" ++ base64Encode content ++ "' | base64 -d > " ++ filepath

/-- Embedding of `writeFile(sessionId, filepath, content)`: look up the
container, pipe the base64 command through `execInContainer`, report
success.  The path is used verbatim; no validation is performed on it. -/
def writeFile (st : SbState) (sessionId filepath content : String)
    (outcome : DockerOutcome) : Except String WriteResult :=
  match lookupContainer st sessionId with
  | none => .error ("No container found for session " ++ sessionId)
  | some _ =>
    match execInContainer st sessionId (writeFileCommand filepath content) outcome with
    | .error e => .error e
    | .ok _ => .ok { success := true, filepath := filepath }

/-- Modelled from the spec: a path escapes the container's declared
workspace root when it contains `..` or is absolute but outside the
workspace root (spec section 4.2, "reject paths containing `..` or
absolute paths outside the container's declared workspace root"). -/
def escapesWorkspaceRoot (workdir p : String) : Bool :=
  strContains p ".." || (strStartsWith p "/" && !(strStartsWith p workdir))

/-! ## Orchestrator: code-testing protocol (from `orchestrator.js`,
`testCode`). -/

/-- Behaviour of the written workspace as the test step observes it:
whether `package.json` exists at the root, the exec result of
`npm install --production`, the exec result of the `find` enumeration of
`*.js` / `*.ts` files, and the `node --check` result per file. -/
structure WorkspaceBehavior where
  hasPackageJson : Bool
  npmInstall : ExecResult
  findFiles : ExecResult
  nodeCheck : String → ExecResult

/-- Result of the test step, with a ghost flag recording whether the
`npm install` branch ran. -/
structure TestCodeResult where
  success : Bool
  errors : List String
  npmInstallRan : Bool
deriving Repr, DecidableEq

/-- Embedding of `testCode(sessionId)` on a successful transport.  The
probe `test -f package.json && echo 'found' || echo 'not found'` echoes
`found` or `not found`; the source then branches on
`pkgResult.output.includes('found')`.  When that test passes,
`npm install --production` runs (timeout 120 s) and a non-zero exit
records `npm install failed: <output>`.  Then the `find` enumeration is
split on newlines, blank lines dropped, and `node --check` runs on the
first 10 files, each non-zero exit recording
`Syntax error in <file>: <output>`.  Success iff no error was recorded. -/
def testCode (ws : WorkspaceBehavior) : TestCodeResult :=
  let pkgOutput := if ws.hasPackageJson then "found" else "not found"
  let npmRan := strContains pkgOutput "found"
  let installErrors :=
    if npmRan then
      if ws.npmInstall.success then []
      else ["npm install failed: " ++ ws.npmInstall.output]
    else []
  let syntaxErrors :=
    if ws.findFiles.success && !(ws.findFiles.output == "") then
      let files := (ws.findFiles.output.splitOn "\n").filter (fun f => !(f.trim == ""))
      (files.take 10).filterMap (fun f =>
        if (ws.nodeCheck f).success then none
        else some ("Syntax error in " ++ f ++ ": " ++ (ws.nodeCheck f).output))
    else []
  { success := (installErrors ++ syntaxErrors).isEmpty
    errors := installErrors ++ syntaxErrors
    npmInstallRan := npmRan }

/-! ## Orchestrator: build loop (from `orchestrator.js`,
`executeBuildLoop`, `executeBuild`, `executeFix`). -/

/-- Iteration cap `MAX_ITERATIONS`. -/
def MAX_ITERATIONS : Nat := 5

/-- One build/test iteration record. -/
structure Iteration where
  number : Nat
  state : Option String
  errors : List String
deriving Repr, DecidableEq

/-- Outcome of one build iteration as the orchestrator observes it: the
tests pass, the tests fail with an error list, or the build phase itself
throws with a message. -/
inductive BuildOutcome
  | testPass
  | testFail (errs : List String)
  | buildError (msg : String)
deriving Repr, DecidableEq

/-- Execution record (the fields the build loop reads and writes), plus a
ghost trace of the prompts passed to the builder agent. -/
structure ExecState where
  prompt : String
  state : String
  iterations : List Iteration
  currentIteration : Nat
  errors : List String
  builderPrompts : List String
deriving Repr, DecidableEq

/-- Fresh execution record, as `startExecution` builds it. -/
def initExec (prompt : String) : ExecState :=
  { prompt := prompt
    state := "idle"
    iterations := []
    currentIteration := 0
    errors := []
    builderPrompts := [] }

/-- The error-augmented builder prompt template of `executeBuild`. -/
def errorAugmentedPrompt (joinedErrors originalPrompt : String) : String :=
  "Previous attempt had errors. Fix them and try again.\n\nErrors:\n" ++
    joinedErrors ++ "\n\nOriginal request: " ++ originalPrompt

/-- One pass of the loop body of `executeBuildLoop` at index `i`
(0-based): a fresh iteration record (`errors` initialized empty) is
pushed, then `executeBuild` runs.  `executeBuild` computes the builder
prompt from that same fresh record's `errors` field
(`iteration.errors.join('\n')`), invokes the builder, and after testing
either marks the iteration `success` or marks it `error`, stores the test
errors on the iteration and appends them to the execution's error list.
Returns the updated state and whether the build succeeded. -/
def loopStep (s : ExecState) (i : Nat) (outcome : BuildOutcome) : ExecState × Bool :=
  let iter0 : Iteration := { number := i + 1, state := none, errors := [] }
  let s0 : ExecState :=
    { s with
      currentIteration := i + 1
      iterations := s.iterations ++ [iter0]
      state := "building" }
  let buildPrompt :=
    if iter0.number = 1 then s0.prompt
    else errorAugmentedPrompt (String.intercalate "\n" iter0.errors) s0.prompt
  let s1 : ExecState := { s0 with builderPrompts := s0.builderPrompts ++ [buildPrompt] }
  match outcome with
  | .testPass =>
    ({ s1 with iterations := s.iterations ++ [{ iter0 with state := some "success" }] },
     true)
  | .testFail errs =>
    ({ s1 with
       iterations := s.iterations ++ [{ iter0 with state := some "error", errors := errs }]
       errors := s1.errors ++ errs },
     false)
  | .buildError msg =>
    ({ s1 with
       iterations := s.iterations ++ [{ iter0 with state := some "error", errors := [msg] }]
       errors := s1.errors ++ [msg] },
     false)

/-- The `for (let i = 0; i < MAX_ITERATIONS; i++)` loop of
`executeBuildLoop`: on success the execution transitions to `success` and
returns; on failure before the last iteration the fixer runs (state
`fixing`, its textual output unused) and the loop continues; on failure
at the last iteration the execution transitions to `failed`.  `fuel` is
the number of remaining loop passes. -/
def runLoopAux (outcomes : Nat → BuildOutcome) : Nat → Nat → ExecState → ExecState
  | 0, _, s => s
  | fuel + 1, i, s =>
    let r := loopStep s i (outcomes i)
    if r.2 then { r.1 with state := "success" }
    else if i + 1 = MAX_ITERATIONS then { r.1 with state := "failed" }
    else runLoopAux outcomes fuel (i + 1) { r.1 with state := "fixing" }

/-- Embedding of `executeBuildLoop` on a fresh execution, with the
per-iteration outcomes supplied by an oracle. -/
def executeBuildLoop (outcomes : Nat → BuildOutcome) (prompt : String) : ExecState :=
  runLoopAux outcomes MAX_ITERATIONS 0 (initExec prompt)

/-- Terminal state of a whole execution: a fired orchestration timer
yields `timeout` (`handleTimeout`), a failed planning phase or sandbox
creation yields `failed` (the `catch` in `startExecution`), and
otherwise the build loop decides between `success` and `failed`. -/
def finalExecutionState (timedOut planningFails : Bool)
    (outcomes : Nat → BuildOutcome) (prompt : String) : String :=
  if timedOut then "timeout"
  else if planningFails then "failed"
  else (executeBuildLoop outcomes prompt).state

/-! ## Theorems -/

/-- Outcome oracle for the C1 run: iteration 1 fails its tests with one
recorded syntax error, iteration 2 passes. -/
def c1Outcomes : Nat → BuildOutcome := fun n =>
  if n = 0 then .testFail ["Syntax error in ./index.js: Unexpected token"] else .testPass

/-- C1.  The claim says the iteration-2 builder prompt embeds the newline
join of the test errors recorded by iteration 1.  In the source,
`executeBuild` joins `iteration.errors` of the iteration object that
`executeBuildLoop` has just created with `errors: []`, not the previous
iteration's record, so the `Errors:` section of the prompt is always
empty: in a run whose first iteration recorded a non-empty test error
list, the second builder prompt is the template applied to the empty
string and does not contain the recorded error. -/
theorem C1_iteration2_prompt_has_empty_error_section :
    (executeBuildLoop c1Outcomes "build a web app").builderPrompts.get? 1 =
      some (errorAugmentedPrompt "" "build a web app") ∧
    (executeBuildLoop c1Outcomes "build a web app").iterations.get? 0 =
      some { number := 1, state := some "error",
             errors := ["Syntax error in ./index.js: Unexpected token"] } ∧
    strContains (errorAugmentedPrompt "" "build a web app")
      "Syntax error in ./index.js" = false := by
  refine ⟨rfl, rfl, ?_⟩
  decide

/-- Workspace for the C4 run: no `package.json` at the root, `npm install`
exits non-zero, no `*.js` / `*.ts` files. -/
def c4Workspace : WorkspaceBehavior :=
  { hasPackageJson := false
    npmInstall := { success := false, output := "ENOENT: no package.json", exitCode := 1 }
    findFiles := { success := true, output := "", exitCode := 0 }
    nodeCheck := fun _ => { success := true, output := "", exitCode := 0 } }

/-- C4.  The claim (and the source's own comment) make the `npm install`
step conditional on `package.json` existing at the workspace root.  The
source tests `pkgResult.output.includes('found')`, and the probe echoes
`not found` when the file is absent — a string that contains `found` as a
substring — so the branch is taken either way: on a workspace with no
`package.json` the install still runs, and its failure is recorded. -/
theorem C4_npm_install_runs_without_package_json :
    c4Workspace.hasPackageJson = false ∧
    strContains "not found" "found" = true ∧
    testCode c4Workspace =
      { success := false
        errors := ["npm install failed: ENOENT: no package.json"]
        npmInstallRan := true } := by
  refine ⟨rfl, ?_, rfl⟩
  decide

/-- Sandbox state holding one running container for session `s1`. -/
def demoSandbox : SbState := createContainer { containers := [], queue := [] } "s1"

/-- C5.  The claim says `writeFile` refuses paths that escape the
container's declared workspace root (`/workspace/<sessionId>`).  The
source performs no path validation at all: a traversal path containing
`..` is passed verbatim into the in-container shell redirect and the
write reports success. -/
theorem C5_traversal_path_is_written_not_refused :
    escapesWorkspaceRoot "/workspace/s1" "../../etc/passwd" = true ∧
    writeFile demoSandbox "s1" "../../etc/passwd" "OWNED" (.ok "") =
      .ok { success := true, filepath := "../../etc/passwd" } ∧
    writeFile demoSandbox "s1" "/etc/cron.d/evil" "OWNED" (.ok "") =
      .ok { success := true, filepath := "/etc/cron.d/evil" } := by
  refine ⟨?_, rfl, rfl⟩
  decide

/-- C6.  For a session whose container is present and `running`,
`execInContainer` always resolves with a `{success, output, exitCode}`
record: a command that exits non-zero surfaces as a `dockerExec`
rejection, is caught inside the function and returned as
`{success: false, output: error.message, exitCode: 1}`; so the function
never raises for a non-zero exit, and any exception can only originate
outside the per-command transport path. -/
theorem C6_exec_in_container_never_raises :
    ∀ (st : SbState) (sid cmd : String) (c : Container) (outcome : DockerOutcome),
      lookupContainer st sid = some c → c.status = "running" →
      execInContainer st sid cmd outcome =
        .ok (match outcome with
          | .ok stdout => { success := true, output := stdout, exitCode := 0 }
          | .err msg =>
            { success := false
              output := "Docker SSH command failed: " ++ msg
              exitCode := 1 }) := by
  intro st sid cmd c outcome hl hs
  unfold execInContainer
  rw [hl]
  simp only [hs]
  cases outcome <;> simp

/-- Witness for C6 at a concrete state: a failing `node --check` surfaces
as a returned failure record, not an exception. -/
theorem C6_witness :
    execInContainer demoSandbox "s1" "node --check ./index.js" (.err "Command failed") =
      .ok { success := false
            output := "Docker SSH command failed: Command failed"
            exitCode := 1 } :=
  C6_exec_in_container_never_raises demoSandbox "s1" "node --check ./index.js"
    (newContainer "s1") (.err "Command failed") rfl rfl

/-- C9.  The history mutation of the `/invoke` and `/invoke/stream`
handlers keeps every session history at length at most 20: appending the
user/assistant pair to a history within the invariant stays within it,
and whenever the append exceeds 20 entries exactly the most recent 16
are retained (`slice(-16)`). -/
theorem C9_history_bounded :
    ∀ (history : List ChatMessage) (u a : ChatMessage),
      (history.length ≤ 20 → (updateSessionHistory history u a).length ≤ 20) ∧
      (20 < history.length + 2 →
        (updateSessionHistory history u a).length = 16 ∧
        List.IsSuffix (updateSessionHistory history u a) (history ++ [u, a])) := by
  intro history u a
  unfold updateSessionHistory
  constructor
  · intro h
    by_cases hlen : 20 < (history ++ [u, a]).length
    · simp only [hlen, if_true, List.length_drop]
      omega
    · simp only [hlen, if_false]
      simp only [List.length_append, List.length_cons, List.length_nil] at hlen ⊢
      omega
  · intro h
    have hlen : 20 < (history ++ [u, a]).length := by
      simp only [List.length_append, List.length_cons, List.length_nil]
      omega
    refine ⟨?_, ?_⟩
    · simp only [hlen, if_true, List.length_drop]
      simp only [List.length_append, List.length_cons, List.length_nil]
      omega
    · simp only [hlen, if_true]
      exact List.drop_suffix _ _

/-- Witness for C9: a history of 19 entries takes the pair to 21 and is
cut back to the most recent 16. -/
theorem C9_witness :
    (updateSessionHistory (List.replicate 19 ({ role := "user", content := "x" } : ChatMessage))
      { role := "user", content := "hello" } { role := "assistant", content := "hi" }).length ≤ 20 ∧
    (updateSessionHistory (List.replicate 19 ({ role := "user", content := "x" } : ChatMessage))
      { role := "user", content := "hello" } { role := "assistant", content := "hi" }).length = 16 :=
  ⟨(C9_history_bounded _ _ _).1 (by simp),
   ((C9_history_bounded _ _ _).2 (by simp)).1⟩

/-- C10.  A builder-class role is routed to the chat provider, and
`invokeAgent` increments `activeBuilderRequests` before calling
`getAdaptiveModel`, so model selection observes a queue depth that counts
the request itself (`n + 1`, never the pre-call value), and the `finally`
block restores the counter whether the invocation succeeds or fails. -/
theorem C10_counter_counts_request_itself :
    ∀ (n : Nat) (complexity prompt : String) (succeeds : Bool) (role : String),
      isBuilderClassRole role = true →
      (invokeAgentCounter n role complexity prompt succeeds).observedQueueDepth = n + 1 ∧
      (invokeAgentCounter n role complexity prompt succeeds).modelSelected =
        (getAdaptiveModel role complexity prompt (n + 1)).1 ∧
      (invokeAgentCounter n role complexity prompt succeeds).counterAfter = n := by
  intro n complexity prompt succeeds role hrole
  simp only [isBuilderClassRole, Bool.or_eq_true, beq_iff_eq] at hrole
  rcases hrole with (h | h) | h <;> subst h <;> cases succeeds <;>
    exact ⟨rfl, rfl, rfl⟩

/-- Witness for C10: a lone builder invocation observes queue depth 1 and
restores the counter to 0. -/
theorem C10_witness :
    (invokeAgentCounter 0 "builder" "medium" "make a page" true).observedQueueDepth = 1 ∧
    (invokeAgentCounter 0 "builder" "medium" "make a page" false).counterAfter = 0 :=
  ⟨(C10_counter_counts_request_itself 0 "medium" "make a page" true "builder" rfl).1,
   (C10_counter_counts_request_itself 0 "medium" "make a page" false "builder" rfl).2.2⟩

/-- Shape of a retry run: the sleeps are the consecutive backoff values
starting at `2000 * (attempt + 1)`; each sleep is justified by a
retryable failure of the corresponding attempt; sleeps stop within the
retry budget; the number of attempts is bounded by the fuel. -/
theorem retryAux_characterization (attempts : Nat → QwenOutcome) (maxRetries : Nat) :
    ∀ (fuel attempt : Nat),
      (retryAux attempts maxRetries fuel attempt).delays =
        (List.range (retryAux attempts maxRetries fuel attempt).delays.length).map
          (fun j => 2000 * (attempt + 1 + j)) ∧
      (∀ j, j < (retryAux attempts maxRetries fuel attempt).delays.length →
        ∃ m, attempts (attempt + j) = .fail m ∧ isRetryableMsg m = true) ∧
      ((retryAux attempts maxRetries fuel attempt).delays.length = 0 ∨
        attempt + (retryAux attempts maxRetries fuel attempt).delays.length ≤ maxRetries) ∧
      (retryAux attempts maxRetries fuel attempt).attemptsMade ≤ fuel := by
  intro fuel
  induction fuel with
  | zero =>
    intro attempt
    simp [retryAux]
  | succ fuel ih =>
    intro attempt
    rcases hA : attempts attempt with content | msg
    · simp [retryAux, hA]
    · by_cases hr : isRetryableMsg msg = true ∧ attempt < maxRetries
      · have hstep :
            retryAux attempts maxRetries (fuel + 1) attempt =
              { result := (retryAux attempts maxRetries fuel (attempt + 1)).result
                attemptsMade := (retryAux attempts maxRetries fuel (attempt + 1)).attemptsMade + 1
                delays := 2000 * (attempt + 1) ::
                  (retryAux attempts maxRetries fuel (attempt + 1)).delays } := by
          simp [retryAux, hA, hr.1, hr.2]
        obtain ⟨ihd, ihj, ihb, iha⟩ := ih (attempt + 1)
        rw [hstep]
        refine ⟨?_, ?_, ?_, ?_⟩
        · simp only [List.length_cons, List.range_succ_eq_map, List.map_cons, List.map_map,
            List.cons_eq_cons, Nat.add_zero, true_and, and_true, eq_self_iff_true]
          conv_lhs => rw [ihd]
          apply List.map_congr_left
          intro j _
          simp only [Function.comp_apply]
          omega
        · intro j hj
          cases j with
          | zero => exact ⟨msg, by simpa using hA, hr.1⟩
          | succ j =>
            simp only [List.length_cons] at hj
            obtain ⟨m, hm, hrm⟩ := ihj j (by omega)
            exact ⟨m, by rw [show attempt + (j + 1) = attempt + 1 + j by omega]; exact hm, hrm⟩
        · right
          show attempt + (2000 * (attempt + 1) ::
              (retryAux attempts maxRetries fuel (attempt + 1)).delays).length ≤ maxRetries
          simp only [List.length_cons]
          rcases ihb with h0 | hle
          · omega
          · omega
        · show (retryAux attempts maxRetries fuel (attempt + 1)).attemptsMade + 1 ≤ fuel + 1
          omega
      · have hstep :
            retryAux attempts maxRetries (fuel + 1) attempt =
              { result := .error msg, attemptsMade := 1, delays := [] } := by
          simp only [retryAux, hA]
          rw [if_neg hr]
        rw [hstep]
        simp

/-- C8.  The chat-provider retry wrapper, invoked by `invokeAgent` with
`maxRetries = 3`: its backoff sleeps are always a prefix of
2 s, 4 s, 6 s (so at most 3 retries, hence at most 4 attempts); every
sleep is justified by a failure whose message falls in the retryable
classes (connection / timeout / ECONNREFUSED / ETIMEDOUT / fetch
failed); and a first failure outside those classes is propagated at once
with no retry and no sleep. -/
theorem C8_retry_only_retryable_bounded_backoff :
    ∀ attempts : Nat → QwenOutcome,
      (∃ k, k ≤ 3 ∧ (invokeQwenWithRetry attempts INVOKE_AGENT_MAX_RETRIES).delays =
        List.take k [2000, 4000, 6000]) ∧
      (invokeQwenWithRetry attempts INVOKE_AGENT_MAX_RETRIES).attemptsMade ≤ 4 ∧
      (∀ j, j < (invokeQwenWithRetry attempts INVOKE_AGENT_MAX_RETRIES).delays.length →
        ∃ m, attempts j = .fail m ∧ isRetryableMsg m = true) ∧
      (∀ m, attempts 0 = .fail m → isRetryableMsg m = false →
        invokeQwenWithRetry attempts INVOKE_AGENT_MAX_RETRIES =
          { result := .error m, attemptsMade := 1, delays := [] }) := by
  intro attempts
  obtain ⟨hd, hj, hb, ha⟩ :=
    retryAux_characterization attempts INVOKE_AGENT_MAX_RETRIES (INVOKE_AGENT_MAX_RETRIES + 1) 0
  have hlen : (invokeQwenWithRetry attempts INVOKE_AGENT_MAX_RETRIES).delays.length ≤ 3 := by
    unfold invokeQwenWithRetry
    rcases hb with h0 | hle
    · omega
    · simpa [INVOKE_AGENT_MAX_RETRIES] using hle
  refine ⟨?_, ?_, ?_, ?_⟩
  · refine ⟨(invokeQwenWithRetry attempts INVOKE_AGENT_MAX_RETRIES).delays.length, hlen, ?_⟩
    have hd2 : (invokeQwenWithRetry attempts INVOKE_AGENT_MAX_RETRIES).delays =
        (List.range (invokeQwenWithRetry attempts INVOKE_AGENT_MAX_RETRIES).delays.length).map
          (fun j => 2000 * (0 + 1 + j)) := hd
    rw [hd2]
    interval_cases h : (invokeQwenWithRetry attempts INVOKE_AGENT_MAX_RETRIES).delays.length <;>
      simp [List.range_succ]
  · simpa [invokeQwenWithRetry, INVOKE_AGENT_MAX_RETRIES] using ha
  · intro j hj2
    simpa using hj j hj2
  · intro m hm hnr
    unfold invokeQwenWithRetry INVOKE_AGENT_MAX_RETRIES
    simp [retryAux, hm, hnr]

/-- Attempt oracle for the C8 witness: the first attempt fails with a
non-retryable (HTTP) error. -/
def c8Attempts : Nat → QwenOutcome := fun n =>
  if n = 0 then .fail "HTTP 400 bad request" else .ok "done"

/-- Witness for C8: the non-retryable failure is propagated after exactly
one attempt, with no sleeps. -/
theorem C8_witness :
    invokeQwenWithRetry c8Attempts INVOKE_AGENT_MAX_RETRIES =
      { result := .error "HTTP 400 bad request", attemptsMade := 1, delays := [] } :=
  (C8_retry_only_retryable_bounded_backoff c8Attempts).2.2.2
    "HTTP 400 bad request" rfl (by decide)

/-- The code's adaptive selection agrees with the spec's first-match
decision table, for every role, declared complexity, intent and queue
depth. -/
theorem adaptive_matches_spec_table :
    ∀ (role complexity : String) (intent : Intent) (q : Nat),
      complexity = "simple" ∨ complexity = "medium" ∨ complexity = "complex" →
      specAdaptiveModel role complexity intent q =
        some (getAdaptiveModelWithIntent role complexity intent q) := by
  intro role cx intent q hcx
  by_cases hfix : role = "fixer"
  · subst hfix
    simp [specAdaptiveModel, firstMatch, rowFixer, getAdaptiveModelWithIntent]
  · by_cases hb : role ≠ "builder" ∧ role ≠ "coder" ∧ role ≠ "executor"
    · simp [specAdaptiveModel, firstMatch, rowFixer, rowNonBuilder, hfix, hb,
        getAdaptiveModelWithIntent]
    · rcases hcx with hcx | hcx | hcx <;> subst hcx
      · by_cases h3 : 3 ≤ q
        · simp [specAdaptiveModel, firstMatch, rowFixer, rowNonBuilder, rowComplexOptimized,
            rowComplexPinned, rowSimpleHigh, hfix, hb, h3, getAdaptiveModelWithIntent]
        · by_cases h2 : 2 ≤ q
          · simp [specAdaptiveModel, firstMatch, rowFixer, rowNonBuilder, rowComplexOptimized,
              rowComplexPinned, rowSimpleHigh, rowSimpleMedium, hfix, hb, h2, h3,
              getAdaptiveModelWithIntent]
          · simp [specAdaptiveModel, firstMatch, rowFixer, rowNonBuilder, rowComplexOptimized,
              rowComplexPinned, rowSimpleHigh, rowSimpleMedium, rowSimpleLow, hfix, hb, h2, h3,
              getAdaptiveModelWithIntent]
      · by_cases h3 : 3 ≤ q
        · simp [specAdaptiveModel, firstMatch, rowFixer, rowNonBuilder, rowComplexOptimized,
            rowComplexPinned, rowSimpleHigh, rowSimpleMedium, rowSimpleLow, rowMediumHigh,
            hfix, hb, h3, getAdaptiveModelWithIntent]
        · by_cases hst : intent = .STATIC
          · subst hst
            simp [specAdaptiveModel, firstMatch, rowFixer, rowNonBuilder, rowComplexOptimized,
              rowComplexPinned, rowSimpleHigh, rowSimpleMedium, rowSimpleLow, rowMediumHigh,
              hfix, hb, h3, getAdaptiveModelWithIntent, PHASE_3_6_ENABLED]
          · simp [specAdaptiveModel, firstMatch, rowFixer, rowNonBuilder, rowComplexOptimized,
              rowComplexPinned, rowSimpleHigh, rowSimpleMedium, rowSimpleLow, rowMediumHigh,
              rowMediumStandard, hfix, hb, h3, hst, getAdaptiveModelWithIntent]
      · cases intent <;>
          simp [specAdaptiveModel, firstMatch, rowFixer, rowNonBuilder, rowComplexOptimized,
            rowComplexPinned, hfix, hb, getAdaptiveModelWithIntent, intentSuffix,
            PHASE_3_6_ENABLED]

/-- C3.  The adaptive model selection of `getAdaptiveModel` equals the
section 4.3 decision table under first-matching-row-wins semantics for
every role, declared complexity, prompt and queue depth; in particular a
simple builder request at queue depth 3 gets the small model with reason
`simple_queue_high`, and a complex builder request whose prompt contains
`crud` at queue depth 0 gets the mid model with reason
`complex_optimized_crud`. -/
theorem C3_adaptive_routing_matches_spec_table :
    (∀ (role complexity prompt : String) (q : Nat),
      complexity = "simple" ∨ complexity = "medium" ∨ complexity = "complex" →
      specAdaptiveModel role complexity (detectIntent prompt) q =
        some (getAdaptiveModel role complexity prompt q)) ∧
    getAdaptiveModel "builder" "simple" "" 3 = (OLLAMA_1_5B_MODEL, "simple_queue_high") ∧
    getAdaptiveModel "builder" "complex" "crud" 0 =
      (OLLAMA_7B_MODEL, "complex_optimized_crud") := by
  refine ⟨?_, rfl, rfl⟩
  intro role cx prompt q hcx
  exact adaptive_matches_spec_table role cx (detectIntent prompt) q hcx

/-- Witness for C3 at a concrete input: a medium non-builder request
agrees with the table. -/
theorem C3_witness :
    specAdaptiveModel "backend" "medium" (detectIntent "make an api") 0 =
      some (getAdaptiveModel "backend" "medium" "make an api" 0) :=
  C3_adaptive_routing_matches_spec_table.1 "backend" "medium" "make an api" 0
    (Or.inr (Or.inl rfl))

/-- The iteration list only grows: whatever was recorded when the loop
resumes at index `i` is a prefix of what it ends with. -/
theorem runLoopAux_prefix (o : Nat → BuildOutcome) :
    ∀ (fuel i : Nat) (s : ExecState),
      List.IsPrefix s.iterations (runLoopAux o fuel i s).iterations := by
  intro fuel
  induction fuel with
  | zero => intro i s; exact List.prefix_refl _
  | succ fuel ih =>
    intro i s
    cases hoc : o i with
    | testPass =>
      simp [runLoopAux, loopStep, hoc]
    | testFail errs =>
      simp only [runLoopAux, loopStep, hoc]
      split
      · rename_i hfalse; exact absurd hfalse (by simp)
      · split
        · simp
        · refine List.IsPrefix.trans ?_ (ih (i + 1) _)
          exact List.prefix_append _ _
    | buildError msg =>
      simp only [runLoopAux, loopStep, hoc]
      split
      · rename_i hfalse; exact absurd hfalse (by simp)
      · split
        · simp
        · refine List.IsPrefix.trans ?_ (ih (i + 1) _)
          exact List.prefix_append _ _

/-- Each loop pass adds one iteration, so the fuel bounds the growth of
the iteration list. -/
theorem runLoopAux_length (o : Nat → BuildOutcome) :
    ∀ (fuel i : Nat) (s : ExecState),
      (runLoopAux o fuel i s).iterations.length ≤ s.iterations.length + fuel := by
  intro fuel
  induction fuel with
  | zero => intro i s; simp [runLoopAux]
  | succ fuel ih =>
    intro i s
    cases hoc : o i with
    | testPass =>
      simp [runLoopAux, loopStep, hoc]
    | testFail errs =>
      simp only [runLoopAux, loopStep, hoc]
      split
      · rename_i hfalse; exact absurd hfalse (by simp)
      · split
        · simp only [List.length_append, List.length_cons, List.length_nil]
          omega
        · refine le_trans (ih (i + 1) _) ?_
          simp only [List.length_append, List.length_cons, List.length_nil]
          omega
    | buildError msg =>
      simp only [runLoopAux, loopStep, hoc]
      split
      · rename_i hfalse; exact absurd hfalse (by simp)
      · split
        · simp only [List.length_append, List.length_cons, List.length_nil]
          omega
        · refine le_trans (ih (i + 1) _) ?_
          simp only [List.length_append, List.length_cons, List.length_nil]
          omega

/-- The loop stops at the first success: if no recorded iteration was a
success when the loop resumes, then in the final list only the last
iteration can be a success. -/
theorem runLoopAux_success_only_last (o : Nat → BuildOutcome) :
    ∀ (fuel i : Nat) (s : ExecState),
      (∀ it ∈ s.iterations, it.state ≠ some "success") →
      ∀ it ∈ (runLoopAux o fuel i s).iterations.dropLast, it.state ≠ some "success" := by
  intro fuel
  induction fuel with
  | zero =>
    intro i s hNo it hit
    exact hNo it (List.dropLast_subset _ hit)
  | succ fuel ih =>
    intro i s hNo
    cases hoc : o i with
    | testPass =>
      simp only [runLoopAux, loopStep, hoc]
      split
      · intro it hit
        simp only [List.dropLast_concat] at hit
        exact hNo it hit
      · rename_i hf
        exact absurd trivial hf
    | testFail errs =>
      simp only [runLoopAux, loopStep, hoc]
      split
      · rename_i hfalse; exact absurd hfalse (by simp)
      · split
        · intro it hit
          simp only [List.dropLast_concat] at hit
          exact hNo it hit
        · apply ih (i + 1)
          intro it hit
          rcases List.mem_append.mp hit with hmem | hmem
          · exact hNo it hmem
          · rw [List.mem_singleton.mp hmem]
            simp
    | buildError msg =>
      simp only [runLoopAux, loopStep, hoc]
      split
      · rename_i hfalse; exact absurd hfalse (by simp)
      · split
        · intro it hit
          simp only [List.dropLast_concat] at hit
          exact hNo it hit
        · apply ih (i + 1)
          intro it hit
          rcases List.mem_append.mp hit with hmem | hmem
          · exact hNo it hmem
          · rw [List.mem_singleton.mp hmem]
            simp

/-- Run to the end of the loop, the execution state is `success` or
`failed`. -/
theorem runLoopAux_terminal (o : Nat → BuildOutcome) :
    ∀ (fuel i : Nat) (s : ExecState), i + fuel = MAX_ITERATIONS → 1 ≤ fuel →
      (runLoopAux o fuel i s).state = "success" ∨
      (runLoopAux o fuel i s).state = "failed" := by
  intro fuel
  induction fuel with
  | zero => intro i s _ h1; omega
  | succ fuel ih =>
    intro i s hsum _
    cases hoc : o i with
    | testPass =>
      simp [runLoopAux, loopStep, hoc]
    | testFail errs =>
      simp only [runLoopAux, loopStep, hoc]
      split
      · rename_i hfalse; exact absurd hfalse (by simp)
      · split
        · exact Or.inr rfl
        · rename_i hmax
          exact ih (i + 1) _ (by omega)
            (by simp only [MAX_ITERATIONS] at hsum hmax ⊢; omega)
    | buildError msg =>
      simp only [runLoopAux, loopStep, hoc]
      split
      · rename_i hfalse; exact absurd hfalse (by simp)
      · split
        · exact Or.inr rfl
        · rename_i hmax
          exact ih (i + 1) _ (by omega)
            (by simp only [MAX_ITERATIONS] at hsum hmax ⊢; omega)

/-- C2.  The build loop appends iterations monotonically and records at
most `MAX_ITERATIONS = 5` of them; it stops at the first successful
iteration, so no iteration before the last one is a success; and across
timeout, planning failure and the loop itself, the reachable terminal
execution states are exactly `success`, `failed` and `timeout`, each
witnessed by a run. -/
theorem C2_build_loop_invariants :
    ∀ (outcomes : Nat → BuildOutcome) (prompt : String) (timedOut planningFails : Bool),
      (executeBuildLoop outcomes prompt).iterations.length ≤ MAX_ITERATIONS ∧
      (∀ (fuel i : Nat) (s : ExecState),
        List.IsPrefix s.iterations (runLoopAux outcomes fuel i s).iterations) ∧
      (∀ it ∈ (executeBuildLoop outcomes prompt).iterations.dropLast,
        it.state ≠ some "success") ∧
      (finalExecutionState timedOut planningFails outcomes prompt = "success" ∨
        finalExecutionState timedOut planningFails outcomes prompt = "failed" ∨
        finalExecutionState timedOut planningFails outcomes prompt = "timeout") ∧
      finalExecutionState false false (fun _ => .testPass) prompt = "success" ∧
      finalExecutionState false false (fun _ => .testFail ["e"]) prompt = "failed" ∧
      finalExecutionState true false outcomes prompt = "timeout" := by
  intro outcomes prompt timedOut planningFails
  refine ⟨?_, runLoopAux_prefix outcomes, ?_, ?_, rfl, rfl, rfl⟩
  · have := runLoopAux_length outcomes MAX_ITERATIONS 0 (initExec prompt)
    simpa [executeBuildLoop, initExec] using this
  · exact runLoopAux_success_only_last outcomes MAX_ITERATIONS 0 (initExec prompt)
      (by intro it hit; simp [initExec] at hit)
  · cases timedOut with
    | true => exact Or.inr (Or.inr rfl)
    | false =>
      cases planningFails with
      | true => exact Or.inr (Or.inl rfl)
      | false =>
        have := runLoopAux_terminal outcomes MAX_ITERATIONS 0 (initExec prompt) rfl
          (by simp [MAX_ITERATIONS])
        rcases this with h | h
        · exact Or.inl (by simpa [finalExecutionState, executeBuildLoop] using h)
        · exact Or.inr (Or.inl (by simpa [finalExecutionState, executeBuildLoop] using h))

/-- Witness for C2 at concrete runs: an always-failing run records 5
iterations and stays within the cap, and a timed-out run ends in
`timeout`. -/
theorem C2_witness :
    (executeBuildLoop (fun _ => .testFail ["e"]) "p").iterations.length ≤ MAX_ITERATIONS ∧
    finalExecutionState true false (fun _ => .testPass) "p" = "timeout" :=
  ⟨(C2_build_loop_invariants (fun _ => .testFail ["e"]) "p" false false).1,
   (C2_build_loop_invariants (fun _ => .testPass) "p" true false).2.2.2.2.2.2⟩

/-- Destroying a session with no container is a no-op on the state
(`destroyContainer` returns `not_found` without touching the map or the
queue). -/
theorem destroyContainer_not_found (st : SbState) (sid : String)
    (h : lookupContainer st sid = none) : destroyContainer st sid = st := by
  simp [destroyContainer, h]

/-- Searching an appended list when the first part has no hit. -/
theorem find?_append_of_none {α : Type} (p : α → Bool) :
    ∀ (l1 l2 : List α), l1.find? p = none → (l1 ++ l2).find? p = l2.find? p := by
  intro l1
  induction l1 with
  | nil => intro l2 _; simp
  | cons a l ih =>
    intro l2 h
    by_cases hp : p a
    · rw [List.find?_cons_of_pos _ hp] at h
      exact absurd h (by simp)
    · rw [List.find?_cons_of_neg _ hp] at h
      show List.find? p (a :: (l ++ l2)) = List.find? p l2
      rw [List.find?_cons_of_neg _ hp]
      exact ih l2 h

/-- Processing the creation queue never makes a missing session appear,
as long as no queued request carries that session id. -/
theorem lookup_processQueueAux_none :
    ∀ (fuel : Nat) (st : SbState) (sid : String),
      lookupContainer st sid = none →
      (∀ e ∈ st.queue, e.sessionId ≠ sid) →
      lookupContainer (processQueueAux fuel st) sid = none := by
  intro fuel
  induction fuel with
  | zero => intro st sid h _; exact h
  | succ fuel ih =>
    intro st sid h hq
    simp only [processQueueAux]
    cases hqe : st.queue with
    | nil => exact h
    | cons e rest =>
      by_cases hc : canCreateContainer st
      · simp only [hc, if_true]
        apply ih
        · have hfind : st.containers.find? (fun p => p.1 == sid) = none := by
            have h2 := h
            simp only [lookupContainer, Option.map_eq_none'] at h2
            exact h2
          simp only [lookupContainer]
          rw [find?_append_of_none _ _ _ hfind]
          have hne : e.sessionId ≠ sid := hq e (by rw [hqe]; exact List.mem_cons_self e rest)
          simp [hne]
        · intro e2 he2
          exact hq e2 (by rw [hqe]; exact List.mem_cons_of_mem e he2)
      · simp only [hc, if_false]
        exact h

/-- Processing the creation queue only dequeues. -/
theorem processQueueAux_queue_le :
    ∀ (fuel : Nat) (st : SbState),
      (processQueueAux fuel st).queue.length ≤ st.queue.length := by
  intro fuel
  induction fuel with
  | zero => intro st; exact le_refl _
  | succ fuel ih =>
    intro st
    obtain ⟨cs, q⟩ := st
    cases q with
    | nil => exact Nat.le.refl
    | cons e rest =>
      simp only [processQueueAux]
      split <;>
        first
          | exact Nat.le_trans (ih _) (Nat.le_succ _)
          | exact Nat.le.refl

/-- Removing a session's entry makes its lookup miss. -/
theorem lookup_removeContainer :
    ∀ (st : SbState) (sid : String),
      lookupContainer (removeContainer st sid) sid = none := by
  intro st sid
  simp only [lookupContainer, removeContainer, Option.map_eq_none']
  rw [List.find?_eq_none]
  intro x hx
  have := (List.mem_filter.mp hx).2
  simp only [bne_iff_ne, ne_eq] at this
  simp [this]

/-- Reachable sandbox state for the C7 counterexample: sessions A, B, C
running (cap 3), requests for D and again for A queued, then B destroyed
(which starts D from the queue, leaving the stale request for A queued
while A still runs). -/
def c7State : SbState :=
  destroyContainer
    (createContainer
      (createContainer
        (createContainer
          (createContainer
            (createContainer { containers := [], queue := [] } "A") "B") "C") "D") "A")
    "B"

/-- Counterexample to C7 as stated: with a queued creation request for
the same session id, destroying the session's container twice does not
yield the same observable state as destroying it once (the first destroy
re-creates the session from the queue, the second destroys it again). -/
theorem C7_counterexample_destroy_not_idempotent :
    destroyContainer (destroyContainer c7State "A") "A" ≠ destroyContainer c7State "A" := by
  decide

/-- C7 (amended).  Provided the pending creation queue holds no request
for the destroyed session id, `destroyContainer` is idempotent on the
observable sandbox state; and a successful destruction with a nonempty
queue and a freed slot starts (dequeues) the next queued creation
request before returning. -/
theorem C7_destroy_idempotent_and_releases_slot :
    ∀ (st : SbState) (sid : String),
      ((∀ e ∈ st.queue, e.sessionId ≠ sid) →
        destroyContainer (destroyContainer st sid) sid = destroyContainer st sid) ∧
      (∀ (c : Container) (e : QueueEntry) (rest : List QueueEntry),
        lookupContainer st sid = some c → st.queue = e :: rest →
        canCreateContainer (removeContainer st sid) = true →
        (destroyContainer st sid).queue.length < st.queue.length) := by
  intro st sid
  constructor
  · intro hq
    cases hl : lookupContainer st sid with
    | none =>
      rw [destroyContainer_not_found st sid hl, destroyContainer_not_found st sid hl]
    | some c =>
      have h1 : destroyContainer st sid = processQueue (removeContainer st sid) := by
        simp [destroyContainer, hl]
      have h2 : lookupContainer (destroyContainer st sid) sid = none := by
        rw [h1]
        exact lookup_processQueueAux_none _ _ _ (lookup_removeContainer st sid) hq
      exact destroyContainer_not_found _ _ h2
  · intro c e rest hl hqe hcan
    have h1 : destroyContainer st sid = processQueue (removeContainer st sid) := by
      simp [destroyContainer, hl]
    rw [h1]
    have hRq : (removeContainer st sid).queue = e :: rest := hqe
    show (processQueueAux ((removeContainer st sid).queue.length)
        (removeContainer st sid)).queue.length < st.queue.length
    rw [hqe]
    simp only [List.length_cons]
    have hstep : processQueueAux (rest.length + 1) (removeContainer st sid) =
        processQueueAux rest.length
          { removeContainer st sid with
            queue := rest,
            containers := (removeContainer st sid).containers ++
              [(e.sessionId, newContainer e.sessionId)] } := by
      conv_lhs => rw [processQueueAux, hRq]
      simp only [hcan, if_true]
    have hRql : (removeContainer st sid).queue.length = rest.length + 1 := by
      rw [hRq]; simp
    rw [hRql, hstep]
    have hle := processQueueAux_queue_le rest.length
      { removeContainer st sid with
        queue := rest,
        containers := (removeContainer st sid).containers ++
          [(e.sessionId, newContainer e.sessionId)] }
    have hq2 : ({ removeContainer st sid with
        queue := rest,
        containers := (removeContainer st sid).containers ++
          [(e.sessionId, newContainer e.sessionId)] } : SbState).queue = rest := rfl
    rw [hq2] at hle
    omega

/-- Witness for the amended C7: with an empty queue, destroying the demo
session twice equals destroying it once. -/
theorem C7_witness :
    destroyContainer (destroyContainer demoSandbox "s1") "s1" =
      destroyContainer demoSandbox "s1" :=
  (C7_destroy_idempotent_and_releases_slot demoSandbox "s1").1 (by decide)

end OpenClaw
